import Mathlib

/-!
# Verification of the PayPal Commerce checkout-button strategy

A shallow embedding of `src/checkout-buttons/strategies/paypal-commerce/
paypal-commerce-button-strategy.ts` (class `PaypalCommerceButtonStrategy`),
together with theorems settling the specification's claims about the
shipping-change reconciliation flow.

Modelling conventions:
* Monetary values travel through the JavaScript code both as numbers and as
  decimal strings; `parseFloat(String(x))` round-trips them.  We model every
  monetary value by its rational value (`Money := ℚ`) and `Number.toFixed(2)`
  by `fix2`, rounding to two decimal places.
* JavaScript objects become structures with the source's field names;
  `undefined`-able fields become `Option`s.
* Fallible code (`throw`) returns `Option`/`none`.
* The payment processor collaborator is an environment record of pure
  functions; the list of gateway calls a handler invocation performs is
  returned explicitly as a trace.
-/

/-- Monetary amounts (JS numbers / decimal strings) are modelled by `ℚ`. -/
abbrev Money : Type := ℚ

/-- Model of `Number.prototype.toFixed(2)`: round to two decimal places
(half away from zero on nonnegative amounts, as `round` does). -/
def fix2 (q : Money) : Money := ((round (q * 100) : ℤ) : ℚ) / 100

/-- ASCII model of `String.prototype.toUpperCase()` (the codes the source
compares are ASCII country/region codes and state names). -/
def jsToUpper (s : String) : String := ⟨s.data.map Char.toUpper⟩

/-- A region (subdivision) entry of the store-country table
(`Region` from `../../../geography`). -/
structure Region where
  code : String
deriving DecidableEq, Repr

/-- A country entry of the store-country table (`Country` from geography). -/
structure Country where
  code : String
  subdivisions : List Region
deriving DecidableEq, Repr

/-- The store-country table returned by `getStoreCountries()`:
`{ data: [{ code, subdivisions }] }`. -/
structure CountryTable where
  data : List Country
deriving DecidableEq, Repr

/-- One entry of the static US state table (`UnitedStatesCodes`). -/
structure UnitedStatesCodes where
  name : String
  abbreviation : String
deriving DecidableEq, Repr

/-- The provider-side shipping contact (`ShippingAddress`):
`data.shipping_address` of a shipping-change event. -/
structure ShippingAddress where
  city : String
  postal_code : String
  country_code : String
  state : Option String
deriving DecidableEq, Repr

/-- The merchant-side address literal built by `_transformToAddress`:
exactly the fields `city`, `postalCode`, `countryCode`. -/
structure Address where
  city : String
  postalCode : String
  countryCode : String
deriving DecidableEq, Repr

/-- Embedding of `_transformUSCodes(code)`: find the US-state entry whose `name` strictly
equals the contact's `state` and whose `abbreviation` is truthy (non-empty).
A `none` contact state (`undefined`) matches no entry. -/
def transformUSCodes (usTable : List UnitedStatesCodes) (code : Option String) :
    Option UnitedStatesCodes :=
  usTable.find? (fun st => code == some st.name && st.abbreviation ≠ "")

/-- The country resolved for the contact:
`countries.data.find(c => c.code === (contact.country_code || '').toUpperCase())`. -/
def resolvedCountry (countries : CountryTable) (contact : ShippingAddress) :
    Option Country :=
  countries.data.find? (fun c => c.code == jsToUpper contact.country_code)

/-- The subdivision list of the resolved country (`[]` when no country
resolves, matching `addressCountry?.subdivisions.find` on `undefined`). -/
def resolvedSubdivisions (countries : CountryTable) (contact : ShippingAddress) :
    List Region :=
  ((resolvedCountry countries contact).map Country.subdivisions).getD []

/-- The predicate of the subdivision search in `_transformToAddress`:
`region.code === contact.state?.toUpperCase() || this._transformUSCodes(contact.state)`.
Note the fallback branch does not depend on the region being tested. -/
def regionMatches (usTable : List UnitedStatesCodes) (contact : ShippingAddress)
    (region : Region) : Bool :=
  (match contact.state with
   | some s => region.code == jsToUpper s
   | none => false) ||
  (transformUSCodes usTable contact.state).isSome

/-- The pure core of `_transformToAddress`, applied to whichever country table
the cache logic resolved: builds `{city, postalCode, countryCode}` from the
contact, overwrites `postalCode` with the found subdivision's `code`, and
fails (`throw new InvalidArgumentError('Invalid Address')`, modelled `none`)
when the subdivision search finds nothing. -/
def transformToAddressCore (usTable : List UnitedStatesCodes)
    (countries : CountryTable) (contact : ShippingAddress) : Option Address :=
  ((resolvedSubdivisions countries contact).find?
      (regionMatches usTable contact)).map
    (fun stateAddress =>
      { city := contact.city
        postalCode := stateAddress.code
        countryCode := contact.country_code })

example :
    transformToAddressCore
      [⟨"Texas", "TX"⟩]
      ⟨[⟨"US", [⟨"CA"⟩, ⟨"TX"⟩]⟩]⟩
      ⟨"Austin", "78701", "US", some "TX"⟩ =
    some ⟨"Austin", "TX", "US"⟩ := by decide

-- US state name fallback: predicate holds for every region, first one wins.
example :
    transformToAddressCore
      [⟨"Texas", "TX"⟩]
      ⟨[⟨"US", [⟨"CA"⟩, ⟨"TX"⟩]⟩]⟩
      ⟨"Austin", "78701", "US", some "Texas"⟩ =
    some ⟨"Austin", "CA", "US"⟩ := by decide

example :
    transformToAddressCore
      [⟨"Texas", "TX"⟩]
      ⟨[⟨"US", [⟨"CA"⟩, ⟨"TX"⟩]⟩]⟩
      ⟨"Austin", "78701", "US", some "Atlantis"⟩ = none := by decide

/-- A cart line item as used by `_collectLineItems` (`id`, `quantity`). -/
structure SourceLineItem where
  id : String
  quantity : Nat
deriving DecidableEq, Repr

/-- Embedding of `LineItemMap`: the cart's digital and physical item groups. -/
structure LineItemMap where
  digitalItems : List SourceLineItem
  physicalItems : List SourceLineItem
deriving DecidableEq, Repr

/-- Embedding of `CollectedLineItem`: the `itemId` plus `quantity` pairs. -/
structure CollectedLineItem where
  itemId : String
  quantity : Nat
deriving DecidableEq, Repr

/-- Embedding of `_collectLineItems`: digital items first, then physical items, each
mapped to `{ itemId: id, quantity }`. -/
def collectLineItems (lineItems : LineItemMap) : List CollectedLineItem :=
  (lineItems.digitalItems ++ lineItems.physicalItems).map
    (fun i => { itemId := i.id, quantity := i.quantity })

/-- The cart fields the shipping-change handler reads. -/
structure Cart where
  id : String
  baseAmount : Money
  lineItems : LineItemMap
deriving DecidableEq

/-- Embedding of `AvaliableShippingOption` (source spelling) from the consignment of the
`getShippingOptions` response. -/
structure AvaliableShippingOption where
  id : String
  description : String
  cost : Money
  isRecommended : Bool
deriving DecidableEq

/-- The provider's `data.selected_shipping_option`: its `id` and
`amount.value` are the fields the handler reads. -/
structure SelectedShippingOption where
  id : String
  amountValue : Money
deriving DecidableEq

/-- Embedding of `ShippingChangeData`: the provider payload of a shipping-change event. -/
structure ShippingChangeData where
  shipping_address : ShippingAddress
  selected_shipping_option : Option SelectedShippingOption
deriving DecidableEq

/-- The projection of the `getShippingOptions` response
(`CheckoutWithBillingAddress`) the handler reads:
`consignments[0].availableShippingOptions` (possibly `undefined`) and
`cart.lineItems.physicalItems.length`. -/
structure CheckoutWithBillingAddress where
  availableShippingOptions : Option (List AvaliableShippingOption)
  physicalItemsCount : Nat
deriving DecidableEq

/-- A decorated shipping option as built inside `_onShippingChangeHandler`:
`{ id, type: 'SHIPPING', label, selected, amount: { value, currency_code } }`. -/
structure DecoratedShippingOption where
  id : String
  type : String
  label : String
  selected : Bool
  amountValue : Money
  amountCurrencyCode : String
deriving DecidableEq

/-- A `{ currency_code, value }` pair inside a patch breakdown. -/
structure MoneyField where
  currency_code : String
  value : Money
deriving DecidableEq

/-- The breakdown of the amount patch: `item_total` always,
`shipping` only on the shipping branch. -/
structure AmountBreakdown where
  item_total : MoneyField
  shipping : Option MoneyField
deriving DecidableEq

/-- The `value` object of the `replace` patch operation. -/
structure PatchAmountValue where
  currency_code : String
  value : Money
  breakdown : AmountBreakdown
deriving DecidableEq

/-- A patch operation passed to `actions.order.patch`. -/
inductive PatchOp where
  | replaceAmount (path : String) (value : PatchAmountValue)
  | addOptions (path : String) (value : List DecoratedShippingOption)
deriving DecidableEq

/-- What `_onShippingChangeHandler` hands back to the widget:
the digital-only branch returns the patch promise itself, the empty-options
branch returns `actions.reject()`, the normal branch returns
`actions.resolve()` after (conditionally) issuing a patch.  Each constructor
records the patch operations issued on that path. -/
inductive HandlerOutcome where
  | patched (ops : List PatchOp)
  | rejected
  | resolved (ops : List PatchOp)
deriving DecidableEq

/-- The patch operations a handler outcome emitted. -/
def HandlerOutcome.ops : HandlerOutcome → List PatchOp
  | .patched l => l
  | .rejected => []
  | .resolved l => l

/-- The per-session mutable fields of `PaypalCommerceButtonStrategy`.
`cache = none` models `_cache === undefined` (before `initialize`),
`cache = some none` models the empty object `{}` set by `initialize`,
`cache = some (some t)` models `_cache.countries = t`. -/
structure Session where
  isCredit : Option Bool
  cache : Option (Option CountryTable)
  currentShippingAddress : Option Address
  submittedShippingAddress : Option Address
  shippingOptionId : Option String
deriving DecidableEq

/-- A gateway call observable in a handler invocation's trace. -/
inductive GatewayCall where
  | getStoreCountries
  | getShippingOptions
deriving DecidableEq, Repr

/-- The `PaypalCommercePaymentProcessor` collaborator, reduced to the two
calls the shipping-change flow makes.  `getShippingOptions` is a pure
function of the request payload, modelling unchanged gateway responses. -/
structure PaypalCommercePaymentProcessor where
  getStoreCountries : CountryTable
  getShippingOptions : String → Address → List CollectedLineItem → CheckoutWithBillingAddress

/-- The country table the cache logic resolves:
`this._cache?.countries || getCountries` (a present table is always truthy). -/
def cacheCountries (proc : PaypalCommercePaymentProcessor)
    (cache : Option (Option CountryTable)) : CountryTable :=
  match cache with
  | some (some c) => c
  | _ => proc.getStoreCountries

/-- Embedding of `_transformToAddress`: awaits `getStoreCountries()` unconditionally (the
call is in the trace on every invocation), prefers the cached table for the
value, writes the resolved table back when `_cache` exists, then runs the
pure translation core.  Returns the translated address (`none` = throw),
the updated session and the gateway-call trace. -/
def transformToAddress (usTable : List UnitedStatesCodes)
    (proc : PaypalCommercePaymentProcessor) (st : Session)
    (contact : ShippingAddress) :
    Option Address × Session × List GatewayCall :=
  let countries := cacheCountries proc st.cache
  let st' :=
    match st.cache with
    | some _ => { st with cache := some (some countries) }
    | none => st
  (transformToAddressCore usTable countries contact, st',
    [GatewayCall.getStoreCountries])

/-- Embedding of `_isAddressSame`: `JSON.stringify` equality of two addresses built by the
same code path is structural equality. -/
def isAddressSame (address1 address2 : Option Address) : Bool :=
  address1 == address2

/-- The per-option body of the `availableShippingOptions.map` in
`_onShippingChangeHandler`: decides `isSelected` and updates the mutable
`shippingAmount`.  When the shopper has a provider-side selection **and** the
current address equals the last submitted one, the option matching the
selection id is selected and the amount is the provider's string; otherwise
any recommended option is selected and the amount is its cost to two
decimals. -/
def decorateStep (sel : Option SelectedShippingOption) (addressSame : Bool)
    (o : AvaliableShippingOption) (amt : Money) : Bool × Money :=
  match sel, addressSame with
  | some s, true => if o.id == s.id then (true, s.amountValue) else (false, amt)
  | _, _ => if o.isRecommended then (true, fix2 o.cost) else (false, amt)

/-- The whole `availableShippingOptions.map(...)` together with the
`shippingAmount` mutation it threads (initially `'0.00'`). -/
def decorateShippingOptions (sel : Option SelectedShippingOption)
    (addressSame : Bool) :
    List AvaliableShippingOption → Money → List DecoratedShippingOption × Money
  | [], amt => ([], amt)
  | o :: rest, amt =>
    let step := decorateStep sel addressSame o amt
    let tail := decorateShippingOptions sel addressSame rest step.2
    ({ id := o.id
       type := "SHIPPING"
       label := o.description
       selected := step.1
       amountValue := fix2 o.cost
       amountCurrencyCode := "USD" } :: tail.1,
     tail.2)

/-- The comparator passed to `shippingOptions.sort`:
`(a.selected === b.selected) ? 0 : a ? -1 : 1`.  The tie-break tests the
array element `a` itself — an object, always truthy — so the comparator
returns `-1` whenever the two selectedness flags differ and never returns a
positive number. -/
def shippingOptionComparator (a b : DecoratedShippingOption) : Int :=
  if a.selected == b.selected then 0 else -1

/-- Insert for the stable comparator-driven sort model: `x` moves past `y`
only when the comparator orders `x` strictly after `y`. -/
def insertCmp {α : Type} (c : α → α → Int) (x : α) : List α → List α
  | [] => [x]
  | y :: ys => if c x y > 0 then y :: insertCmp c x ys else x :: y :: ys

/-- Model of `Array.prototype.sort(comparator)`: a stable insertion sort in
which an element is reordered only on a positive comparator result.  (With
an inconsistent comparator ECMAScript leaves the order implementation-
defined; stable merge-based engines behave exactly like this model, and any
comparator that never returns a positive number leaves the list unchanged.) -/
def jsSort {α : Type} (c : α → α → Int) : List α → List α
  | [] => []
  | x :: xs => insertCmp c x (jsSort c xs)

/-- The amount-patch path literal. -/
def amountPatchPath : String := "/purchase_units/@reference_id=='default'/amount"

/-- The options-patch path literal. -/
def optionsPatchPath : String := "/purchase_units/@reference_id=='default'/shipping/options"

/-- Embedding of `_onShippingChangeHandler(data, actions, cart)`.  Returns `none` when the
handler throws (address translation failure, or the unreachable
`shippingOptions[0]` access on an empty decorated list), otherwise the
updated session and the outcome handed to the widget, plus the gateway-call
trace of the invocation. -/
def onShippingChangeHandler (usTable : List UnitedStatesCodes)
    (proc : PaypalCommercePaymentProcessor) (data : ShippingChangeData)
    (cart : Cart) (st : Session) :
    Option (Session × HandlerOutcome) × List GatewayCall :=
  let baseOrderAmount := cart.baseAmount
  let transformed := transformToAddress usTable proc st data.shipping_address
  match transformed.1 with
  | none => (none, transformed.2.2)
  | some addr =>
    let st1 := { transformed.2.1 with currentShippingAddress := some addr }
    let lineItems := collectLineItems cart.lineItems
    let checkout := proc.getShippingOptions cart.id addr lineItems
    let calls := transformed.2.2 ++ [GatewayCall.getShippingOptions]
    let availableShippingOptions := checkout.availableShippingOptions
    let shippingRequired := checkout.physicalItemsCount > 0
    if ¬shippingRequired then
      (some (st1, HandlerOutcome.patched
        [PatchOp.replaceAmount amountPatchPath
          { currency_code := "USD"
            value := fix2 baseOrderAmount
            breakdown :=
              { item_total := { currency_code := "USD", value := baseOrderAmount }
                shipping := none } }]), calls)
    else if availableShippingOptions = some [] then
      (some (st1, HandlerOutcome.rejected), calls)
    else
      match availableShippingOptions with
      | none =>
        (some ({ st1 with
                  submittedShippingAddress := st1.currentShippingAddress },
               HandlerOutcome.resolved []), calls)
      | some opts =>
        let addressSame :=
          isAddressSame st1.currentShippingAddress st1.submittedShippingAddress
        let decorated :=
          decorateShippingOptions data.selected_shipping_option addressSame opts 0
        let sorted := jsSort shippingOptionComparator decorated.1
        let shippingAmount := decorated.2
        match sorted with
        | [] => (none, calls)
        | o :: rest =>
          let st2 := if o.id ≠ "" then { st1 with shippingOptionId := some o.id } else st1
          let st3 := { st2 with submittedShippingAddress := st2.currentShippingAddress }
          (some (st3, HandlerOutcome.resolved
            [PatchOp.replaceAmount amountPatchPath
              { currency_code := "USD"
                value := fix2 (baseOrderAmount + shippingAmount)
                breakdown :=
                  { item_total := { currency_code := "USD", value := baseOrderAmount }
                    shipping := some { currency_code := "USD", value := shippingAmount } } },
             PatchOp.addOptions optionsPatchPath (o :: rest)]), calls)

/-- Embedding of `deinitialize()`: resets `_isCredit` only. -/
def deinitialize (st : Session) : Session :=
  { st with isCredit := none }

/-- The patch operations of a handler result (`[]` when the handler threw). -/
def emittedOps (r : Option (Session × HandlerOutcome)) : List PatchOp :=
  (r.map (fun p => p.2.ops)).getD []

/-- The `(id, selected)` profile of every options-add patch in a handler
result: a monetary-value-free projection of the emitted patch payload. -/
def outcomeOptionSelections (r : Option (Session × HandlerOutcome)) :
    List (List (String × Bool)) :=
  (emittedOps r).filterMap
    (fun op =>
      match op with
      | PatchOp.addOptions _ l =>
        some (l.map (fun d => (d.id, d.selected)))
      | _ => none)

/-- Modelled from the spec: `UNITED_STATES_CODES`, the static US
state-name→abbreviation table imported from `../../../geography`, whose
definition is outside `src/`; representative entries faithful to the spec's
"static US state-name→abbreviation table". -/
def UNITED_STATES_CODES : List UnitedStatesCodes :=
  [⟨"California", "CA"⟩, ⟨"New York", "NY"⟩, ⟨"Texas", "TX"⟩]

/-- Concrete store-country table fixture. -/
def countriesFixture : CountryTable :=
  ⟨[⟨"US", [⟨"CA"⟩, ⟨"TX"⟩]⟩, ⟨"FR", [⟨"IDF"⟩]⟩]⟩

/-- Concrete shipping contact fixture (state is a subdivision code). -/
def contactFixture : ShippingAddress :=
  ⟨"Austin", "78701", "US", some "TX"⟩

/-- The address `contactFixture` translates to. -/
def addrFixture : Address := ⟨"Austin", "TX", "US"⟩

/-- Processor fixture returning a fixed `getShippingOptions` response. -/
def procWith (r : CheckoutWithBillingAddress) : PaypalCommercePaymentProcessor :=
  { getStoreCountries := countriesFixture
    getShippingOptions := fun _ _ _ => r }

/-- Session right after `initialize()`: `_cache = {}`, everything else unset. -/
def initSession : Session :=
  { isCredit := none
    cache := some none
    currentShippingAddress := none
    submittedShippingAddress := none
    shippingOptionId := none }

/-- Cart fixture with one physical item, base amount 49.99. -/
def cartFixture : Cart :=
  { id := "cart-1"
    baseAmount := 4999 / 100
    lineItems := { digitalItems := [], physicalItems := [⟨"p1", 1⟩] } }

/-- Shipping-change payload fixture without a provider-side selection. -/
def dataNoSelection : ShippingChangeData :=
  { shipping_address := contactFixture, selected_shipping_option := none }

/-- C6 — Address translation fails (`InvalidAddressError`, modelled as
`none`) exactly when the contact's `state` can be mapped to no subdivision of
its resolved country: neither some subdivision's code equals the uppercased
state, nor does the fallback US state-name table recognise the state (which,
when it does, maps it to a subdivision of the resolved country — so the
country must still have at least one subdivision); when either match
succeeds, translation returns an address without throwing. -/
theorem c6_translate_failure_characterisation
    (usTable : List UnitedStatesCodes) (countries : CountryTable)
    (contact : ShippingAddress) :
    transformToAddressCore usTable countries contact = none ↔
      ¬ ((∃ r ∈ resolvedSubdivisions countries contact,
            ∃ s, contact.state = some s ∧ r.code = jsToUpper s) ∨
         ((transformUSCodes usTable contact.state).isSome = true ∧
            resolvedSubdivisions countries contact ≠ [])) := by
  unfold transformToAddressCore
  rw [Option.map_eq_none', List.find?_eq_none]
  constructor
  · intro h hcontra
    rcases hcontra with ⟨r, hr, s, hs, hcode⟩ | ⟨hus, hne⟩
    · have hmatch := h r hr
      simp [regionMatches, hs, hcode] at hmatch
    · obtain ⟨r, hr⟩ := List.exists_mem_of_ne_nil _ hne
      have hmatch := h r hr
      simp [regionMatches, hus] at hmatch
  · intro h r hr hmatch
    apply h
    rcases hstate : contact.state with _ | s
    · rw [regionMatches, hstate] at hmatch
      simp at hmatch
      right
      refine ⟨hmatch, ?_⟩
      intro hnil
      rw [hnil] at hr
      exact absurd hr (List.not_mem_nil r)
    · rw [regionMatches, hstate] at hmatch
      rcases Bool.or_eq_true_iff.mp hmatch with hcode | hus
      · exact Or.inl ⟨r, hr, s, rfl, by simpa using hcode⟩
      · right
        refine ⟨by simp [hstate, hus], ?_⟩
        intro hnil
        rw [hnil] at hr
        exact absurd hr (List.not_mem_nil r)

/-- C10 — When translation succeeds, the returned address consists of
exactly the fields `city`, `postalCode`, `countryCode`; its `postalCode`
holds the matched subdivision's code, and the contact's own `postal_code`
is discarded: the whole translation is independent of it. -/
theorem c10_translate_result_shape
    (usTable : List UnitedStatesCodes) (countries : CountryTable)
    (contact : ShippingAddress) (a : Address)
    (h : transformToAddressCore usTable countries contact = some a) :
    (∃ r, (resolvedSubdivisions countries contact).find?
            (regionMatches usTable contact) = some r ∧
          a = { city := contact.city
                postalCode := r.code
                countryCode := contact.country_code }) ∧
    (∀ p, transformToAddressCore usTable countries
            { contact with postal_code := p } =
          transformToAddressCore usTable countries contact) := by
  constructor
  · unfold transformToAddressCore at h
    rcases hfind : (resolvedSubdivisions countries contact).find?
        (regionMatches usTable contact) with _ | r
    · rw [hfind] at h
      simp at h
    · rw [hfind] at h
      simp only [Option.map_some', Option.some.injEq] at h
      exact ⟨r, rfl, h.symm⟩
  · intro p
    rfl

/-- Witness for `c10_translate_result_shape` at a concrete contact. -/
theorem c10_translate_result_shape_witness :
    (∃ r, (resolvedSubdivisions countriesFixture contactFixture).find?
            (regionMatches UNITED_STATES_CODES contactFixture) = some r ∧
          addrFixture = { city := contactFixture.city
                          postalCode := r.code
                          countryCode := contactFixture.country_code }) ∧
    (∀ p, transformToAddressCore UNITED_STATES_CODES countriesFixture
            { contactFixture with postal_code := p } =
          transformToAddressCore UNITED_STATES_CODES countriesFixture
            contactFixture) :=
  c10_translate_result_shape UNITED_STATES_CODES countriesFixture
    contactFixture addrFixture (by decide)

/-- C1 — For every amount patch the shipping-change handler emits, on
both the digital-only branch and the normal shipping branch, the replace
operation's top-level `value` equals `item_total` plus the shipping
breakdown value when present (plus 0 when the `shipping` key is absent), to
two-decimal precision. -/
theorem c1_amount_patch_value_eq_breakdown_sum
    (usTable : List UnitedStatesCodes) (proc : PaypalCommercePaymentProcessor)
    (data : ShippingChangeData) (cart : Cart) (st : Session)
    (path : String) (v : PatchAmountValue)
    (h : PatchOp.replaceAmount path v ∈
      emittedOps (onShippingChangeHandler usTable proc data cart st).1) :
    v.value =
      fix2 (v.breakdown.item_total.value +
        ((v.breakdown.shipping.map MoneyField.value).getD 0)) := by
  unfold emittedOps onShippingChangeHandler at h
  dsimp only at h
  split at h
  · simp at h
  · split at h
    · simp [HandlerOutcome.ops] at h
      obtain ⟨hpath, hv⟩ := h
      subst hv
      simp
    · split at h
      · simp [HandlerOutcome.ops] at h
      · split at h
        · simp [HandlerOutcome.ops] at h
        · split at h
          · simp at h
          · simp [HandlerOutcome.ops] at h
            obtain ⟨hpath, hv⟩ := h
            subst hv
            simp

/-- C4 — When the checkout requires shipping (the response cart has at
least one physical line item) and the gateway returns an empty
`availableShippingOptions` array, the handler returns the widget's reject
outcome and emits no patch operation at all. -/
theorem c4_empty_options_rejects
    (usTable : List UnitedStatesCodes) (proc : PaypalCommercePaymentProcessor)
    (data : ShippingChangeData) (cart : Cart) (st : Session)
    (addr : Address) (st1 : Session) (tr : List GatewayCall)
    (htr : transformToAddress usTable proc st data.shipping_address =
      (some addr, st1, tr))
    (hphys : (proc.getShippingOptions cart.id addr
        (collectLineItems cart.lineItems)).physicalItemsCount ≠ 0)
    (hopts : (proc.getShippingOptions cart.id addr
        (collectLineItems cart.lineItems)).availableShippingOptions = some []) :
    onShippingChangeHandler usTable proc data cart st =
      (some ({ st1 with currentShippingAddress := some addr },
             HandlerOutcome.rejected),
       tr ++ [GatewayCall.getShippingOptions]) ∧
    emittedOps (onShippingChangeHandler usTable proc data cart st).1 = [] := by
  have heq : onShippingChangeHandler usTable proc data cart st =
      (some ({ st1 with currentShippingAddress := some addr },
             HandlerOutcome.rejected),
       tr ++ [GatewayCall.getShippingOptions]) := by
    unfold onShippingChangeHandler
    rw [htr]
    dsimp only
    rw [if_neg (by simpa using hphys), if_pos hopts]
  exact ⟨heq, by rw [heq]; rfl⟩

/-- Witness for `c4_empty_options_rejects` at a concrete event. -/
theorem c4_empty_options_rejects_witness :
    onShippingChangeHandler UNITED_STATES_CODES (procWith ⟨some [], 1⟩)
      dataNoSelection cartFixture initSession =
      (some ({ { initSession with cache := some (some countriesFixture) } with
               currentShippingAddress := some addrFixture },
             HandlerOutcome.rejected),
       [GatewayCall.getStoreCountries] ++ [GatewayCall.getShippingOptions]) ∧
    emittedOps (onShippingChangeHandler UNITED_STATES_CODES
      (procWith ⟨some [], 1⟩) dataNoSelection cartFixture initSession).1 = [] :=
  c4_empty_options_rejects UNITED_STATES_CODES (procWith ⟨some [], 1⟩)
    dataNoSelection cartFixture initSession addrFixture
    { initSession with cache := some (some countriesFixture) }
    [GatewayCall.getStoreCountries]
    (by decide) (by decide) (by decide)

/-- C5 — When the response cart has zero physical line items, the
handler skips option resolution and emits exactly one replace patch: its
`value` is the base order amount to two decimals, its breakdown carries
only `item_total` (no `shipping` key), and no options-add operation is
issued. -/
theorem c5_digital_cart_patch
    (usTable : List UnitedStatesCodes) (proc : PaypalCommercePaymentProcessor)
    (data : ShippingChangeData) (cart : Cart) (st : Session)
    (addr : Address) (st1 : Session) (tr : List GatewayCall)
    (htr : transformToAddress usTable proc st data.shipping_address =
      (some addr, st1, tr))
    (hphys : (proc.getShippingOptions cart.id addr
        (collectLineItems cart.lineItems)).physicalItemsCount = 0) :
    onShippingChangeHandler usTable proc data cart st =
      (some ({ st1 with currentShippingAddress := some addr },
             HandlerOutcome.patched
               [PatchOp.replaceAmount amountPatchPath
                 { currency_code := "USD"
                   value := fix2 cart.baseAmount
                   breakdown :=
                     { item_total := { currency_code := "USD"
                                       value := cart.baseAmount }
                       shipping := none } }]),
       tr ++ [GatewayCall.getShippingOptions]) := by
  unfold onShippingChangeHandler
  rw [htr]
  dsimp only
  rw [if_pos (by simp [hphys])]

/-- Witness for `c5_digital_cart_patch` at a concrete digital-only event. -/
theorem c5_digital_cart_patch_witness :
    onShippingChangeHandler UNITED_STATES_CODES (procWith ⟨none, 0⟩)
      dataNoSelection cartFixture initSession =
      (some ({ { initSession with cache := some (some countriesFixture) } with
               currentShippingAddress := some addrFixture },
             HandlerOutcome.patched
               [PatchOp.replaceAmount amountPatchPath
                 { currency_code := "USD"
                   value := fix2 cartFixture.baseAmount
                   breakdown :=
                     { item_total := { currency_code := "USD"
                                       value := cartFixture.baseAmount }
                       shipping := none } }]),
       [GatewayCall.getStoreCountries] ++ [GatewayCall.getShippingOptions]) :=
  c5_digital_cart_patch UNITED_STATES_CODES (procWith ⟨none, 0⟩)
    dataNoSelection cartFixture initSession addrFixture
    { initSession with cache := some (some countriesFixture) }
    [GatewayCall.getStoreCountries]
    (by decide) (by decide)

/-- The amount-patch value of the digital-only branch at `cartFixture`. -/
def digitalPatchValue : PatchAmountValue :=
  { currency_code := "USD"
    value := fix2 cartFixture.baseAmount
    breakdown :=
      { item_total := { currency_code := "USD", value := cartFixture.baseAmount }
        shipping := none } }

/-- Witness for `c1_amount_patch_value_eq_breakdown_sum` on the patch the
digital-only branch emits at a concrete event. -/
theorem c1_amount_patch_value_eq_breakdown_sum_witness :
    digitalPatchValue.value =
      fix2 (digitalPatchValue.breakdown.item_total.value +
        ((digitalPatchValue.breakdown.shipping.map MoneyField.value).getD 0)) :=
  c1_amount_patch_value_eq_breakdown_sum UNITED_STATES_CODES
    (procWith ⟨none, 0⟩) dataNoSelection cartFixture initSession
    amountPatchPath digitalPatchValue (List.Mem.head _)

/-- C2 — The sort of the decorated options does **not** put selected
entries first: the comparator's tie-break `a ? -1 : 1` tests the array
element object (always truthy), so the comparator returns `-1` for *every*
pair with differing selectedness — an inconsistent comparator under which
`Array.prototype.sort` is implementation-defined and stable merge-based
engines leave the order unchanged.  At a concrete event whose gateway lists
an unrecommended option before the recommended one, the emitted options-add
payload keeps the unselected option first, violating the claimed
selected-descending order. -/
theorem c2_sort_defect_eval :
    outcomeOptionSelections
      ((onShippingChangeHandler UNITED_STATES_CODES
        (procWith ⟨some [⟨"B", "Option B", 12, false⟩,
                         ⟨"A", "Option A", 5, true⟩], 1⟩)
        dataNoSelection cartFixture initSession).1) =
      [[("B", false), ("A", true)]] ∧
    shippingOptionComparator
      ⟨"B", "SHIPPING", "Option B", false, 12, "USD"⟩
      ⟨"A", "SHIPPING", "Option A", true, 5, "USD"⟩ = -1 ∧
    shippingOptionComparator
      ⟨"A", "SHIPPING", "Option A", true, 5, "USD"⟩
      ⟨"B", "SHIPPING", "Option B", false, 12, "USD"⟩ = -1 := by
  refine ⟨by decide, by decide, by decide⟩

/-- C3 (counterexample) — With two options flagged recommended and no
locked-in shopper selection, the handler's emitted options payload marks
*both* as selected: more than one decorated option ends with
`selected = true`. -/
theorem c3_counterexample_two_recommended :
    outcomeOptionSelections
      ((onShippingChangeHandler UNITED_STATES_CODES
        (procWith ⟨some [⟨"A", "Option A", 5, true⟩,
                         ⟨"B", "Option B", 12, true⟩], 1⟩)
        dataNoSelection cartFixture initSession).1) =
      [[("A", true), ("B", true)]] := by
  decide

/-- When no shopper selection applies (`selected_shipping_option` absent, or
the addresses differ), each option's decoration selects it exactly when it
is flagged recommended, and the threaded shipping amount ends at the *last*
recommended option's cost (to two decimals), keeping its initial value when
nothing is recommended. -/
theorem decorateShippingOptions_no_selection
    (sel : Option SelectedShippingOption) (addressSame : Bool)
    (h : sel = none ∨ addressSame = false)
    (opts : List AvaliableShippingOption) (amt : Money) :
    decorateShippingOptions sel addressSame opts amt =
      (opts.map (fun o =>
        { id := o.id
          type := "SHIPPING"
          label := o.description
          selected := o.isRecommended
          amountValue := fix2 o.cost
          amountCurrencyCode := "USD" }),
       opts.foldl (fun a o => if o.isRecommended then fix2 o.cost else a) amt) := by
  induction opts generalizing amt with
  | nil => rfl
  | cons o rest ih =>
    have hstep : decorateStep sel addressSame o amt =
        (o.isRecommended, if o.isRecommended then fix2 o.cost else amt) := by
      rcases h with h | h
      · subst h
        rcases ho : o.isRecommended <;> simp [decorateStep, ho]
      · subst h
        rcases sel with _ | s <;>
          rcases ho : o.isRecommended <;> simp [decorateStep, ho]
    rw [decorateShippingOptions, hstep]
    dsimp only
    rw [ih]
    rfl

/-- C3 (amended) — When no shopper selection is locked in for the
current address, an option is decorated `selected = true` exactly when it is
flagged recommended: with exactly one recommended option exactly that one is
selected, but with several *all* of them are selected (not only the first),
and the shipping amount is taken from the last recommended option. -/
theorem c3_amended_recommended_selection
    (sel : Option SelectedShippingOption) (addressSame : Bool)
    (h : sel = none ∨ addressSame = false)
    (opts : List AvaliableShippingOption) (amt : Money) :
    (decorateShippingOptions sel addressSame opts amt).1.map
        (fun d => (d.id, d.selected)) =
      opts.map (fun o => (o.id, o.isRecommended)) ∧
    (decorateShippingOptions sel addressSame opts amt).2 =
      opts.foldl (fun a o => if o.isRecommended then fix2 o.cost else a) amt := by
  rw [decorateShippingOptions_no_selection sel addressSame h opts amt]
  constructor
  · simp
  · rfl

/-- Witness for `c3_amended_recommended_selection` with two recommended
options and no provider-side selection. -/
theorem c3_amended_recommended_selection_witness :
    (decorateShippingOptions none false
        [⟨"A", "Option A", 5, true⟩, ⟨"B", "Option B", 12, true⟩] 0).1.map
        (fun d => (d.id, d.selected)) =
      ([⟨"A", "Option A", 5, true⟩,
        ⟨"B", "Option B", 12, true⟩] : List AvaliableShippingOption).map
        (fun o => (o.id, o.isRecommended)) ∧
    (decorateShippingOptions none false
        [⟨"A", "Option A", 5, true⟩, ⟨"B", "Option B", 12, true⟩] 0).2 =
      ([⟨"A", "Option A", 5, true⟩,
        ⟨"B", "Option B", 12, true⟩] : List AvaliableShippingOption).foldl
        (fun a o => if o.isRecommended then fix2 o.cost else a) 0 :=
  c3_amended_recommended_selection none false (Or.inl rfl) _ _

/-- C8 — Every shipping-change invocation issues exactly one
`getStoreCountries` gateway call, *whatever* the session state: the source
awaits `getStoreCountries()` unconditionally before consulting `_cache`, so
a session with an already-populated country cache still triggers a fresh
fetch on each subsequent callback (only the *value* is reused). -/
theorem c8_every_callback_fetches_countries
    (usTable : List UnitedStatesCodes) (proc : PaypalCommercePaymentProcessor)
    (data : ShippingChangeData) (cart : Cart) (st : Session) :
    ((onShippingChangeHandler usTable proc data cart st).2).count
      GatewayCall.getStoreCountries = 1 := by
  unfold onShippingChangeHandler transformToAddress
  dsimp only
  split
  · rfl
  · split
    · rfl
    · split
      · rfl
      · split
        · rfl
        · split
          · rfl
          · rfl

/-- A fully-populated session, as left behind by a completed
shipping-change flow. -/
def fullSession : Session :=
  { isCredit := some true
    cache := some (some countriesFixture)
    currentShippingAddress := some addrFixture
    submittedShippingAddress := some addrFixture
    shippingOptionId := some "A" }

/-- C9 (counterexample) — After `deinitialize()` on a populated session,
the shipping address, submitted address, selected option id and country
cache recorded during the session are all still observable; only
`isCreditSelected` is cleared. -/
theorem c9_counterexample_state_retained :
    ( deinitialize fullSession).isCredit = none ∧
    ( deinitialize fullSession).currentShippingAddress = some addrFixture ∧
    ( deinitialize fullSession).submittedShippingAddress = some addrFixture ∧
    ( deinitialize fullSession).shippingOptionId = some "A" ∧
    ( deinitialize fullSession).cache = some (some countriesFixture) := by
  refine ⟨rfl, rfl, rfl, rfl, rfl⟩

/-- C9 (amended) — `deinitialize()` clears only `isCreditSelected`; the
other session fields (`currentShippingAddress`,
`lastSubmittedShippingAddress`, `selectedShippingOptionId`, `countryCache`)
retain the values recorded during the finished session. -/
theorem c9_amended_only_credit_cleared (st : Session) :
    ( deinitialize st).isCredit = none ∧
    ( deinitialize st).cache = st.cache ∧
    ( deinitialize st).currentShippingAddress = st.currentShippingAddress ∧
    ( deinitialize st).submittedShippingAddress = st.submittedShippingAddress ∧
    ( deinitialize st).shippingOptionId = st.shippingOptionId :=
  ⟨rfl, rfl, rfl, rfl, rfl⟩

/-- Shipping-change payload fixture carrying a provider-side selection of
option `"B"` at `12`. -/
def dataWithSelection : ShippingChangeData :=
  { shipping_address := contactFixture
    selected_shipping_option := some ⟨"B", 12⟩ }

/-- Gateway response fixture: recommended option `"A"` (cost 5) and
non-recommended `"B"` (cost 12), one physical item. -/
def respTwoOptions : CheckoutWithBillingAddress :=
  ⟨some [⟨"A", "Option A", 5, true⟩, ⟨"B", "Option B", 12, false⟩], 1⟩

/-- The session state the first shipping-change call at `dataWithSelection`
leaves behind. -/
def sessionAfterFirstCall : Session :=
  { isCredit := none
    cache := some (some countriesFixture)
    currentShippingAddress := some addrFixture
    submittedShippingAddress := some addrFixture
    shippingOptionId := some "A" }

/-- C7 (counterexample) — Two successive invocations with the *same*
provider payload, cart and gateway responses emit structurally different
patches: the first call (no selection locked in, addresses differ) selects
recommended `"A"`, records the submitted address, and thereby flips the
second call into the shopper-selection branch, which selects `"B"`. -/
theorem c7_counterexample_two_calls :
    ((onShippingChangeHandler UNITED_STATES_CODES (procWith respTwoOptions)
        dataWithSelection cartFixture initSession).1.map Prod.fst) =
      some sessionAfterFirstCall ∧
    outcomeOptionSelections
      ((onShippingChangeHandler UNITED_STATES_CODES (procWith respTwoOptions)
        dataWithSelection cartFixture initSession).1) =
      [[("A", true), ("B", false)]] ∧
    outcomeOptionSelections
      ((onShippingChangeHandler UNITED_STATES_CODES (procWith respTwoOptions)
        dataWithSelection cartFixture sessionAfterFirstCall).1) =
      [[("A", false), ("B", true)]] := by
  refine ⟨by decide, by decide, by decide⟩

/-- With no provider-side selection the decoration ignores the
address-comparison flag entirely. -/
theorem decorateShippingOptions_addressSame_irrelevant
    (a b : Bool) (opts : List AvaliableShippingOption) (amt : Money) :
    decorateShippingOptions none a opts amt =
    decorateShippingOptions none b opts amt := by
  rw [decorateShippingOptions_no_selection none a (Or.inl rfl) opts amt,
      decorateShippingOptions_no_selection none b (Or.inl rfl) opts amt]

/-- The country table the cache logic resolves is unchanged by one
`_transformToAddress` call: the write-back stores exactly the resolved
table. -/
theorem cacheCountries_after_transform
    (usTable : List UnitedStatesCodes) (proc : PaypalCommercePaymentProcessor)
    (st : Session) (contact : ShippingAddress) :
    cacheCountries proc
        ((transformToAddress usTable proc st contact).2.1).cache =
      cacheCountries proc st.cache := by
  unfold transformToAddress
  dsimp only
  rcases hc : st.cache with _ | oc
  · simp [hc, cacheCountries]
  · rcases oc with _ | c <;> simp [hc, cacheCountries]

/-- A successful shipping-change invocation leaves the resolved country
table unchanged: the session it returns resolves the same table as the one
it started from. -/
theorem handler_preserves_cacheCountries
    (usTable : List UnitedStatesCodes) (proc : PaypalCommercePaymentProcessor)
    (data : ShippingChangeData) (cart : Cart) (st st1 : Session)
    (out1 : HandlerOutcome)
    (h : (onShippingChangeHandler usTable proc data cart st).1 =
      some (st1, out1)) :
    cacheCountries proc st1.cache = cacheCountries proc st.cache := by
  have hbase := cacheCountries_after_transform usTable proc st
    data.shipping_address
  unfold onShippingChangeHandler at h
  dsimp only at h
  split at h
  · simp at h
  · split at h
    · simp only [Option.some.injEq, Prod.mk.injEq] at h
      rw [← h.1]
      exact hbase
    · split at h
      · simp only [Option.some.injEq, Prod.mk.injEq] at h
        rw [← h.1]
        exact hbase
      · split at h
        · simp only [Option.some.injEq, Prod.mk.injEq] at h
          rw [← h.1]
          exact hbase
        · split at h
          · simp at h
          · simp only [Option.some.injEq, Prod.mk.injEq] at h
            rw [← h.1]
            dsimp only
            split
            · exact hbase
            · exact hbase

/-- When the payload carries no `selected_shipping_option`, the outcome of a
shipping-change invocation depends on the starting session only through the
country table its cache resolves. -/
theorem handler_outcome_cache_only
    (usTable : List UnitedStatesCodes) (proc : PaypalCommercePaymentProcessor)
    (data : ShippingChangeData) (cart : Cart)
    (hsel : data.selected_shipping_option = none)
    (stA stB : Session)
    (hc : cacheCountries proc stA.cache = cacheCountries proc stB.cache) :
    ((onShippingChangeHandler usTable proc data cart stA).1.map Prod.snd) =
    ((onShippingChangeHandler usTable proc data cart stB).1.map Prod.snd) := by
  unfold onShippingChangeHandler transformToAddress
  dsimp only
  rw [hsel, hc]
  rcases htr : transformToAddressCore usTable (cacheCountries proc stB.cache)
      data.shipping_address with _ | addr
  · rfl
  · dsimp only
    by_cases hphys :
        ¬ (proc.getShippingOptions cart.id addr
            (collectLineItems cart.lineItems)).physicalItemsCount > 0
    · rw [if_pos hphys, if_pos hphys]
      rfl
    · rw [if_neg hphys, if_neg hphys]
      by_cases hopts :
          (proc.getShippingOptions cart.id addr
            (collectLineItems cart.lineItems)).availableShippingOptions =
            some []
      · rw [if_pos hopts, if_pos hopts]
        rfl
      · rw [if_neg hopts, if_neg hopts]
        rcases hav : (proc.getShippingOptions cart.id addr
            (collectLineItems cart.lineItems)).availableShippingOptions
            with _ | opts
        · rfl
        · dsimp only
          conv_lhs =>
            rw [decorateShippingOptions_addressSame_irrelevant _ false opts 0]
          conv_rhs =>
            rw [decorateShippingOptions_addressSame_irrelevant _ false opts 0]
          rcases hsorted : jsSort shippingOptionComparator
              (decorateShippingOptions none false opts 0).1 with _ | ⟨o, rest⟩
          · rfl
          · rfl

/-- C7 (amended) — Calling the shipping-change handler twice in
succession with the same provider payload against an unchanged cart and
unchanged gateway responses produces structurally equal outcomes *provided
the payload carries no `selected_shipping_option`*; with a selection
present, the first call's recording of the submitted address can flip the
second call into the shopper-selection branch and change the patch. -/
theorem c7_amended_idempotent_without_selection
    (usTable : List UnitedStatesCodes) (proc : PaypalCommercePaymentProcessor)
    (data : ShippingChangeData) (cart : Cart) (st st1 st2 : Session)
    (out1 out2 : HandlerOutcome)
    (hsel : data.selected_shipping_option = none)
    (h1 : (onShippingChangeHandler usTable proc data cart st).1 =
      some (st1, out1))
    (h2 : (onShippingChangeHandler usTable proc data cart st1).1 =
      some (st2, out2)) :
    out2 = out1 := by
  have hc := handler_preserves_cacheCountries usTable proc data cart st st1
    out1 h1
  have hmap := handler_outcome_cache_only usTable proc data cart hsel st1 st hc
  rw [h1, h2] at hmap
  simpa using hmap

/-- Witness for `c7_amended_idempotent_without_selection`: two successive
rejections at a concrete selection-free event. -/
theorem c7_amended_idempotent_without_selection_witness :
    (HandlerOutcome.rejected = HandlerOutcome.rejected) :=
  c7_amended_idempotent_without_selection UNITED_STATES_CODES
    (procWith ⟨some [], 1⟩) dataNoSelection cartFixture initSession
    { initSession with
        cache := some (some countriesFixture)
        currentShippingAddress := some addrFixture }
    { initSession with
        cache := some (some countriesFixture)
        currentShippingAddress := some addrFixture }
    HandlerOutcome.rejected HandlerOutcome.rejected
    rfl (by decide) (by decide)
